import Mathlib

/-!
Shallow embedding of the movie-analyzer-pro core pipeline
(`modules/scene_analyzer.py`, `modules/content_detector.py`,
`modules/highlight_detector.py`) and proofs about the spec's claims.

Frames are modelled abstractly: a `VideoSource` carries the per-frame
scalar features that the OpenCV calls of the source compute (mean luma,
mean absolute frame differences, edge density, colour variance, optical
flow magnitude, face count), indexed by frame number.  The decoder is
assumed to deliver every frame with index in `[0, frame_count)`; reads
outside that range fail (`ret == False` in the source), which the
embedding models explicitly wherever the source branches on `ret`.
`fps` is modelled as a positive natural number (the source samples one
frame per second via `int(self.fps)`).
-/

namespace MovieAnalyzerPro

/-- Python `int()` applied to a rational: truncation toward zero. -/
def pyInt (q : ℚ) : ℤ := if 0 ≤ q then ⌊q⌋ else ⌈q⌉

/-- Python `range(a, b, s)` for a positive step `s`, over integers. -/
def pyRangeUp (a b : ℤ) (s : ℕ) : List ℤ :=
  (List.range (((b - a).toNat + s - 1) / s)).map (fun k : ℕ => a + (k : ℤ) * (s : ℤ))

/-- Python `range(a, b, -s)` for a positive step `s`, over integers. -/
def pyRangeDown (a b : ℤ) (s : ℕ) : List ℤ :=
  (List.range (((a - b).toNat + s - 1) / s)).map (fun k : ℕ => a - (k : ℤ) * (s : ℤ))

/-- `np.mean` over a list of scalars. -/
def listMean (l : List ℚ) : ℚ := l.sum / l.length

/-- Abstract video source: the per-frame features that the source's
OpenCV calls compute, indexed by frame number.  `grayDiff i j` is
`np.mean(cv2.absdiff(gray_i, gray_j))` of the grayscale frames,
`frameDiff` the same on the colour frames (`content_detector` uses the
colour frames in `_count_scene_changes`), `bottomDiff` the mean absolute
difference of the lower-half grayscale crops used by
`_has_rolling_credits`, `brightness i` the mean luma of frame `i`,
`edgeDensity`, `colorVariance`, `motion` and `faces` the per-frame
metrics of `highlight_detector._detect_from_video`. -/
structure VideoSource where
  fps : ℕ
  frame_count : ℕ
  grayDiff : ℕ → ℕ → ℚ
  frameDiff : ℕ → ℕ → ℚ
  bottomDiff : ℕ → ℕ → ℚ
  brightness : ℕ → ℚ
  edgeDensity : ℕ → ℚ
  colorVariance : ℕ → ℚ
  motion : ℕ → ℚ
  faces : ℕ → ℕ

/-- Whether `cap.read()` succeeds after seeking to `idx`. -/
def readOk (src : VideoSource) (idx : ℤ) : Bool :=
  decide (0 ≤ idx) && decide (idx < src.frame_count)

namespace SceneAnalyzer

/-- Result record of `SceneAnalyzer._analyze_scene_frames`. -/
structure SceneInfo where
  brightness : ℚ
  motion : ℚ
  faces : ℕ

/-- `SceneAnalyzer._analyze_scene_frames`: mean luma over the buffered
frames, mean inter-sample grayscale difference, and the face count of
the middle buffered frame. -/
def _analyze_scene_frames (src : VideoSource) (frames : List ℕ) : SceneInfo :=
  if frames.isEmpty then ⟨0, 0, 0⟩
  else
    { brightness := listMean (frames.map src.brightness)
      motion :=
        if frames.length > 1 then
          listMean ((frames.zip frames.tail).map (fun p => src.grayDiff p.1 p.2))
        else 0
      faces := src.faces (frames.getD (frames.length / 2) 0) }

/-- `SceneAnalyzer._generate_scene_description`. -/
def _generate_scene_description (info : SceneInfo) : String :=
  let p1 := if info.brightness < 50 then "暗场景"
            else if info.brightness < 150 then "正常光线" else "明亮场景"
  let p2 := if info.motion > 20 then "高动态"
            else if info.motion > 10 then "中等动态" else "静态"
  let parts := [p1, p2] ++ (if info.faces > 0 then [toString info.faces ++ "人"] else [])
  String.intercalate "，" parts

/-- Scene record as produced by `SceneAnalyzer.detect_scenes`. -/
structure Scene where
  id : ℕ
  start : ℚ
  end_ : ℚ
  duration : ℚ
  brightness : ℚ
  motion : ℚ
  faces : ℕ
  description : String
deriving DecidableEq

/-- Close the scene buffer `frames` into a `Scene` spanning the frame
indices `[scene_start, stop)`, as both scene-emission sites of
`detect_scenes` do. -/
def mkScene (src : VideoSource) (nid scene_start stop : ℕ) (frames : List ℕ) : Scene :=
  let info := _analyze_scene_frames src frames
  { id := nid
    start := (scene_start : ℚ) / src.fps
    end_ := (stop : ℚ) / src.fps
    duration := ((stop : ℚ) - (scene_start : ℚ)) / src.fps
    brightness := info.brightness
    motion := info.motion
    faces := info.faces
    description := _generate_scene_description info }

/-- Loop state of `detect_scenes`: accumulated scenes, start frame of the
current scene, buffered frame indices, previous sampled frame. -/
structure ScanState where
  scenes : List Scene
  scene_start : ℕ
  scene_frames : List ℕ
  prev : Option ℕ

/-- One iteration of the sampling loop of `detect_scenes`: if the mean
difference against the previous sample exceeds the threshold, close the
current scene at this sample; then buffer the current sample. -/
def sceneStep (src : VideoSource) (threshold : ℚ) (st : ScanState) (frame_idx : ℕ) :
    ScanState :=
  let st :=
    match st.prev with
    | none => st
    | some prev =>
      if src.grayDiff prev frame_idx > threshold then
        { scenes := st.scenes ++
            [mkScene src st.scenes.length st.scene_start frame_idx st.scene_frames]
          scene_start := frame_idx
          scene_frames := []
          prev := st.prev }
      else st
  { st with scene_frames := st.scene_frames ++ [frame_idx], prev := some frame_idx }

/-- `SceneAnalyzer.detect_scenes`: sample one frame per second up to
`min(max_duration * fps, frame_count)` frames, cut when the grayscale
frame difference exceeds `threshold`, and flush the remaining buffer as
a final scene ending at `max_frames / fps`. -/
def detect_scenes (src : VideoSource) (max_duration : ℕ) (threshold : ℚ) : List Scene :=
  let max_frames := min (max_duration * src.fps) src.frame_count
  let samples := List.range' 0 ((max_frames + src.fps - 1) / src.fps) src.fps
  let st := samples.foldl (sceneStep src threshold) ⟨[], 0, [], none⟩
  if st.scene_frames.isEmpty then st.scenes
  else st.scenes ++ [mkScene src st.scenes.length st.scene_start max_frames st.scene_frames]

end SceneAnalyzer

namespace ContentDetector

/-- `ContentDetector._is_black_frame`: seek to `int(time * fps)` and test
whether the mean luma is below 20; a failed read returns `False`. -/
def _is_black_frame (src : VideoSource) (time : ℤ) : Bool :=
  let frame_idx := time * src.fps
  if readOk src frame_idx then decide (src.brightness frame_idx.toNat < 20) else false

/-- `ContentDetector._has_rolling_credits`: read 5 frames spaced by
`int(fps / 5)` starting at `int(time * fps)`, keep the lower-half
grayscale crops of the successful reads, and report movement when any
consecutive pair differs by a mean of more than 10. -/
def _has_rolling_credits (src : VideoSource) (time : ℤ) : Bool :=
  let frame_idx := time * src.fps
  let frames := (List.range 5).filterMap (fun i =>
    let idx := frame_idx + i * (src.fps / 5)
    if readOk src idx then some idx.toNat else none)
  if frames.length < 2 then false
  else (frames.zip frames.tail).any (fun p => decide (src.bottomDiff p.1 p.2 > 10))

/-- `ContentDetector._is_ending_content`: every 10-second sample in
`[start, end)` is a black frame or shows the rolling-credit signature. -/
def _is_ending_content (src : VideoSource) (start : ℤ) (stop : ℚ) : Bool :=
  (pyRangeUp start (pyInt stop) 10).all
    (fun t => _is_black_frame src t || _has_rolling_credits src t)

/-- `ContentDetector._count_scene_changes`: sample one frame per second in
`[start * fps, end * fps)` and count consecutive sampled pairs whose mean
colour-frame difference exceeds 30. -/
def _count_scene_changes (src : VideoSource) (start stop : ℚ) : ℕ :=
  let start_frame := pyInt (start * src.fps)
  let end_frame := pyInt (stop * src.fps)
  let samples := pyRangeUp start_frame end_frame src.fps
  ((samples.zip samples.tail).filter
    (fun p => decide (src.frameDiff p.1.toNat p.2.toNat > 30))).length

/-- `ContentDetector._analyze_scene_change_frequency`: cut counts per
non-overlapping 10-second window of `[start, end)`, divided by the window
size 10. -/
def _analyze_scene_change_frequency (src : VideoSource) (start stop : ℚ) : List ℚ :=
  (pyRangeUp (pyInt start) (pyInt stop) 10).map
    (fun t : ℤ => (_count_scene_changes src (t : ℚ) (min ((t : ℚ) + 10) stop) : ℚ) / 10)

/-- `ContentDetector._analyze_text_density`: edge density of one frame per
10-second window (0 for a failed read).  Computed by `_detect_intro` but
never used in its decision. -/
def _analyze_text_density (src : VideoSource) (start stop : ℚ) : List ℚ :=
  (pyRangeUp (pyInt start) (pyInt stop) 10).map (fun t : ℤ =>
    let frame_idx := pyInt ((t : ℚ) * src.fps)
    if readOk src frame_idx then src.edgeDensity frame_idx.toNat else 0)

/-- `ContentDetector._analyze_audio_changes`: unimplemented stub that
returns an empty list. -/
def _analyze_audio_changes (_src : VideoSource) (_start _stop : ℚ) : List ℚ := []

/-- Scan of the intro loop `for i in range(1, len(scene_changes))`: the
first index `i ≥ 1` whose window frequency drops below half of the
previous window's frequency. -/
def firstDrop (sc : List ℚ) : Option ℕ :=
  (List.range sc.length).find?
    (fun i => decide (1 ≤ i) && decide (sc.getD i 0 < sc.getD (i - 1) 0 * (1 / 2)))

/-- `ContentDetector._detect_intro`: analyze the first
`min(180, totalDuration)` seconds; the first 10-second window whose cut
frequency drops below 50% of the previous window's marks the intro end at
`i * 10`; otherwise default to `min(30, analyzedSpan)`. -/
def _detect_intro (src : VideoSource) : ℚ :=
  let max_intro_duration : ℚ := min 180 ((src.frame_count : ℚ) / src.fps)
  let scene_changes := _analyze_scene_change_frequency src 0 max_intro_duration
  match firstDrop scene_changes with
  | some i => ((i * 10 : ℕ) : ℚ)
  | none => min 30 max_intro_duration

/-- `ContentDetector._detect_outro`: scan backward from
`total_duration - 30` toward `total_duration - min(300, total_duration)`
in 10-second steps; the first time with the rolling-credit signature, or
a black frame followed only by ending content, is the outro start;
otherwise default to `max(total_duration - 60, total_duration * 0.95)`. -/
def _detect_outro (src : VideoSource) : ℚ :=
  let total_duration : ℚ := (src.frame_count : ℚ) / src.fps
  let check_duration : ℚ := min 300 total_duration
  let outro_start : ℚ := total_duration - check_duration
  let scan := pyRangeDown (pyInt (total_duration - 30)) (pyInt outro_start) 10
  match scan.find? (fun t =>
      _has_rolling_credits src t ||
        (_is_black_frame src t && _is_ending_content src t total_duration)) with
  | some t => (t : ℚ)
  | none => max (total_duration - 60) (total_duration * (95 / 100))

/-- Span record (`start`, `end`, `duration`) used in the result dict. -/
structure Span where
  start : ℚ
  end_ : ℚ
  duration : ℚ
deriving DecidableEq

/-- Black-frame segment: the loop works on integer sample times. -/
structure BlackSeg where
  start : ℤ
  end_ : ℤ
  duration : ℤ
deriving DecidableEq

/-- `ContentDetector._detect_ads`: declared extension point, currently
detects nothing. -/
def _detect_ads (_src : VideoSource) (_intro_end _outro_start : ℚ)
    (_sample_duration : ℕ) : List Span := []

/-- One iteration of the `_detect_black_frames` loop: track the start of a
contiguous black run, and emit a segment when a run of at least 2 seconds
ends. -/
def blackStep (src : VideoSource) (acc : List BlackSeg × Option ℤ) (t : ℤ) :
    List BlackSeg × Option ℤ :=
  if _is_black_frame src t then
    match acc.2 with
    | none => (acc.1, some t)
    | some _ => acc
  else
    match acc.2 with
    | some s => (if t - s ≥ 2 then acc.1 ++ [⟨s, t, t - s⟩] else acc.1, none)
    | none => acc

/-- `ContentDetector._detect_black_frames`: sample every 5 seconds in
`[start, end)` and collect black runs of at least 2 seconds.  A run still
open when the loop ends is discarded, as in the source. -/
def _detect_black_frames (src : VideoSource) (start stop : ℚ) : List BlackSeg :=
  ((pyRangeUp (pyInt start) (pyInt stop) 5).foldl (blackStep src) ([], none)).1

/-- Result record of `ContentDetector.detect_content_boundaries`. -/
structure ContentBoundaries where
  total_duration : ℚ
  intro : Span
  outro : Span
  main_content : Span
  ads : List Span
  black_frames : List BlackSeg
deriving DecidableEq

/-- `ContentDetector.detect_content_boundaries`. -/
def detect_content_boundaries (src : VideoSource) (sample_duration : ℕ) :
    ContentBoundaries :=
  let total_duration : ℚ := (src.frame_count : ℚ) / src.fps
  let intro_end := _detect_intro src
  let outro_start := _detect_outro src
  let ad_segments := _detect_ads src intro_end outro_start sample_duration
  let black_segments := _detect_black_frames src intro_end outro_start
  { total_duration := total_duration
    intro := ⟨0, intro_end, intro_end⟩
    outro := ⟨outro_start, total_duration, total_duration - outro_start⟩
    main_content := ⟨intro_end, outro_start, outro_start - intro_end⟩
    ads := ad_segments
    black_frames := black_segments }

end ContentDetector

namespace HighlightDetector

/-- Scene record as consumed by `HighlightDetector`: the fields that
`detect_highlights` reads from the scene dicts (`start`, `end`,
`duration` directly; `motion`, `faces`, `dialogues`, `brightness` via
`scene.get` with defaults).  `dialogues` is `len(scene.get('dialogues',
[]))`, the number of dialogue entries attached by the screenplay step. -/
structure SceneRecord where
  start : ℚ
  end_ : ℚ
  duration : ℚ
  brightness : ℚ
  motion : ℚ
  faces : ℕ
  dialogues : ℕ
deriving DecidableEq

/-- Highlight record as produced by `detect_highlights`. -/
structure Highlight where
  id : ℕ
  start : ℚ
  end_ : ℚ
  duration : ℚ
  score : ℚ
  reason : String
  type : String
deriving DecidableEq

/-- `HighlightDetector._calculate_scene_score`: the weighted sum over
motion band, face count, dialogue count, duration band and brightness
band. -/
def _calculate_scene_score (scene : SceneRecord) : ℚ :=
  let score : ℚ := 0
  let score := score + (if scene.motion > 20 then 30
                        else if scene.motion > 10 then 20 else 5)
  let score := score + scene.faces * 15
  let score := score + scene.dialogues * 10
  let score := score + (if 5 ≤ scene.duration ∧ scene.duration ≤ 20 then 20
                        else if 3 ≤ scene.duration ∧ scene.duration ≤ 30 then 10 else 0)
  let score := score + (if 50 ≤ scene.brightness ∧ scene.brightness ≤ 150 then 10 else 0)
  score

/-- `HighlightDetector._get_highlight_reason`. -/
def _get_highlight_reason (scene : SceneRecord) : String :=
  let reasons :=
    (if scene.motion > 20 then ["高动态场景"] else []) ++
    (if scene.faces ≥ 3 then ["多人互动"]
     else if scene.faces > 0 then ["人物场景"] else []) ++
    (if scene.dialogues > 2 then ["重要对话"] else [])
  if reasons.isEmpty then "综合评分高" else String.intercalate "，" reasons

/-- `HighlightDetector._classify_highlight_type`. -/
def _classify_highlight_type (scene : SceneRecord) : String :=
  if scene.motion > 20 then "action"
  else if scene.dialogues > 0 then "dialogue"
  else if scene.faces > 2 then "group"
  else "scenic"

/-- Highlight-building loop of `_detect_from_scenes`: ids are assigned as
`len(highlights)` in the order the (score-sorted) scenes are consumed. -/
def buildSceneHighlights : ℕ → List (SceneRecord × ℚ) → List Highlight
  | _, [] => []
  | nid, (s, sc) :: rest =>
    { id := nid
      start := s.start
      end_ := s.end_
      duration := s.duration
      score := sc
      reason := _get_highlight_reason s
      type := _classify_highlight_type s } :: buildSceneHighlights (nid + 1) rest

/-- `HighlightDetector._detect_from_scenes`: score every scene, sort by
score descending (Python `list.sort` is stable; `List.insertionSort` with
this relation is the same stable descending sort), and map the top
`max_highlights` scenes verbatim to highlights. -/
def _detect_from_scenes (scenes : List SceneRecord) (max_highlights : ℕ) :
    List Highlight :=
  let scored_scenes := scenes.map (fun s => (s, _calculate_scene_score s))
  let sorted := List.insertionSort (fun a b => b.2 ≤ a.2) scored_scenes
  buildSceneHighlights 0 (sorted.take max_highlights)

/-- Per-sample metric record of `_detect_from_video`. -/
structure Metric where
  frame_idx : ℕ
  time : ℚ
  motion : ℚ
  edges : ℚ
  color_variance : ℚ
  brightness : ℚ
  faces : ℕ
  score : ℚ
deriving DecidableEq

/-- `HighlightDetector._calculate_metric_score`. -/
def _calculate_metric_score (motion edges color_variance brightness : ℚ)
    (faces : ℕ) : ℚ :=
  let score : ℚ := 0
  let score := score + motion * 30
  let score := score + edges * 20
  let score := score + min (color_variance / 1000) 20
  let score := score + faces * 25
  let score := score + (if 50 ≤ brightness ∧ brightness ≤ 150 then 10 else 0)
  score

/-- One sampled metric of `_detect_from_video` at frame `frame_idx`. -/
def sampleMetric (src : VideoSource) (frame_idx : ℕ) : Metric :=
  let motion := src.motion frame_idx
  let edges := src.edgeDensity frame_idx
  let color_variance := src.colorVariance frame_idx
  let brightness := src.brightness frame_idx
  let faces := src.faces frame_idx
  { frame_idx := frame_idx
    time := (frame_idx : ℚ) / src.fps
    motion := motion
    edges := edges
    color_variance := color_variance
    brightness := brightness
    faces := faces
    score := _calculate_metric_score motion edges color_variance brightness faces }

/-- One iteration of the greedy selection loop of
`_extract_highlight_segments` (the source `break`s once `max_highlights`
is reached; skipping the remaining metrics is equivalent). -/
def extractStep (max_highlights : ℕ) (min_duration max_duration : ℚ)
    (acc : List Highlight × List ℚ) (metric : Metric) : List Highlight × List ℚ :=
  if acc.1.length ≥ max_highlights then acc
  else if acc.2.any (fun t => decide (|metric.time - t| < min_duration * 2)) then acc
  else
    let duration := min max_duration (max min_duration 10)
    (acc.1 ++
      [{ id := acc.1.length
         start := metric.time
         end_ := metric.time + duration
         duration := duration
         score := metric.score
         reason := "高动态场景 (运动:" ++ toString metric.motion ++ ")"
         type := if metric.motion > 5 then "action" else "dialogue" }],
     acc.2 ++ [metric.time])

/-- `HighlightDetector._extract_highlight_segments`: sort the metrics by
score descending (stable), greedily select metrics whose timestamp is at
least `2 * min_duration` away from every already-selected timestamp, give
each a fixed duration `min(max_duration, max(min_duration, 10))`, then
re-sort the selected highlights by start time ascending. -/
def _extract_highlight_segments (metrics : List Metric) (fps : ℕ)
    (max_highlights : ℕ) (min_duration max_duration : ℚ) : List Highlight :=
  let sorted := List.insertionSort (fun a b => b.score ≤ a.score) metrics
  let highlights :=
    (sorted.foldl (extractStep max_highlights min_duration max_duration) ([], [])).1
  List.insertionSort (fun a b => a.start ≤ b.start) highlights

/-- `HighlightDetector._detect_from_video`: sample one frame per second
over the whole stream, compute a metric per sample, and extract the
highlight segments. -/
def _detect_from_video (src : VideoSource) (max_highlights : ℕ)
    (min_duration max_duration : ℚ) : List Highlight :=
  let sample_interval := src.fps
  let samples :=
    List.range' 0 ((src.frame_count + sample_interval - 1) / sample_interval)
      sample_interval
  let metrics := samples.map (sampleMetric src)
  _extract_highlight_segments metrics src.fps max_highlights min_duration max_duration

/-- `HighlightDetector.detect_highlights`: Python tests `if scenes:`, so
both `None` and the empty list select the raw-video-driven mode; only a
non-empty scene list selects the scene-driven mode. -/
def detect_highlights (src : VideoSource) (scenes : Option (List SceneRecord))
    (max_highlights : ℕ) (min_duration max_duration : ℚ) : List Highlight :=
  match scenes with
  | some (s :: rest) => _detect_from_scenes (s :: rest) max_highlights
  | _ => _detect_from_video src max_highlights min_duration max_duration

end HighlightDetector

/-! Concrete synthetic sources used to evaluate the detectors on
explicit inputs. -/

/-- A 3-second, 1-fps source with three identical dark frames. -/
def flatSource : VideoSource where
  fps := 1
  frame_count := 3
  grayDiff := fun _ _ => 0
  frameDiff := fun _ _ => 0
  bottomDiff := fun _ _ => 0
  brightness := fun _ => 0
  edgeDensity := fun _ => 0
  colorVariance := fun _ => 0
  motion := fun _ => 0
  faces := fun _ => 0

/-- A 50-second source (5 fps, 250 frames) of normal brightness with
constant heavy motion: any two distinct frames differ by a mean of 40
over the full frame and by 12 over the lower half, so the cut frequency
is uniformly high (no drop) and the lower half always shows the
rolling-credit movement signature. -/
def strobeSource : VideoSource where
  fps := 5
  frame_count := 250
  grayDiff := fun i j => if i = j then 0 else 40
  frameDiff := fun i j => if i = j then 0 else 40
  bottomDiff := fun i j => if i = j then 0 else 12
  brightness := fun _ => 100
  edgeDensity := fun _ => 0
  colorVariance := fun _ => 0
  motion := fun _ => 0
  faces := fun _ => 0

/-- Mean luma of `blackIntroSource`: black (5) for the first 5 seconds,
normal (100) afterwards. -/
def blackIntroLuma (i : ℕ) : ℚ := if i < 5 then 5 else 100

/-- A 100-second, 1-fps source of uniform-luma frames that is black
(mean luma 5 < 20) for the first 5 seconds and normal afterwards; frame
differences are the luma differences of the uniform frames. -/
def blackIntroSource : VideoSource where
  fps := 1
  frame_count := 100
  grayDiff := fun i j => |blackIntroLuma i - blackIntroLuma j|
  frameDiff := fun i j => |blackIntroLuma i - blackIntroLuma j|
  bottomDiff := fun i j => |blackIntroLuma i - blackIntroLuma j|
  brightness := blackIntroLuma
  edgeDensity := fun _ => 0
  colorVariance := fun _ => 0
  motion := fun _ => 0
  faces := fun _ => 0

/-- Mean luma of `midBlackSource`: black during `[40, 50)` seconds. -/
def midBlackLuma (i : ℕ) : ℚ := if 40 ≤ i ∧ i < 50 then 5 else 100

/-- A 100-second, 1-fps source of uniform-luma frames with a black run
during `[40, 50)` seconds. -/
def midBlackSource : VideoSource where
  fps := 1
  frame_count := 100
  grayDiff := fun i j => |midBlackLuma i - midBlackLuma j|
  frameDiff := fun i j => |midBlackLuma i - midBlackLuma j|
  bottomDiff := fun i j => |midBlackLuma i - midBlackLuma j|
  brightness := midBlackLuma
  edgeDensity := fun _ => 0
  colorVariance := fun _ => 0
  motion := fun _ => 0
  faces := fun _ => 0

/-- A 7-second, 1-fps source of dim frames with slight inter-frame
change and high optical-flow magnitude at timestamps 0 and 6. -/
def twoPeakSource : VideoSource where
  fps := 1
  frame_count := 7
  grayDiff := fun i j => if i = j then 0 else 2
  frameDiff := fun i j => if i = j then 0 else 2
  bottomDiff := fun i j => if i = j then 0 else 2
  brightness := fun _ => 30
  edgeDensity := fun _ => 0
  colorVariance := fun _ => 0
  motion := fun i => if i = 0 then 10 else if i = 6 then 9 else 0
  faces := fun _ => 0

/-- A 1-second, 1-fps source with a single featureless frame. -/
def oneFrameSource : VideoSource where
  fps := 1
  frame_count := 1
  grayDiff := fun _ _ => 0
  frameDiff := fun _ _ => 0
  bottomDiff := fun _ _ => 0
  brightness := fun _ => 0
  edgeDensity := fun _ => 0
  colorVariance := fun _ => 0
  motion := fun _ => 0
  faces := fun _ => 0

/-- Highlight record produced by the raw-video mode on `twoPeakSource`
for the timestamp-0 sample (used to instantiate duration theorems). -/
def firstPeakHighlight : HighlightDetector.Highlight :=
  { id := 0, start := 0, end_ := 10, duration := 10, score := 300,
    reason := "高动态场景 (运动:" ++ toString (10 : ℚ) ++ ")", type := "action" }

/-- Highlight record produced by the raw-video mode on `oneFrameSource`
with `min_duration = 20 > max_duration = 5` (silently clamped). -/
def clampedHighlight : HighlightDetector.Highlight :=
  { id := 0, start := 0, end_ := 5, duration := 5, score := 0,
    reason := "高动态场景 (运动:" ++ toString (0 : ℚ) ++ ")", type := "dialogue" }

/-- Black-frame segment reported on `midBlackSource`. -/
def midBlackSeg : ContentDetector.BlackSeg := ⟨40, 50, 10⟩

/-- Loop invariant of the `detect_scenes` sampling loop: the accumulated
scenes are gapless from 0, and the pending scene starts where the last
accumulated scene ends. -/
def SceneAnalyzer.ScanInv (src : VideoSource) (st : SceneAnalyzer.ScanState) : Prop :=
  List.Chain' (fun a b => a.end_ = b.start) st.scenes ∧
  (st.scenes = [] → st.scene_start = 0) ∧
  (∀ s0 ∈ st.scenes.head?, s0.start = 0) ∧
  (∀ sl ∈ st.scenes.getLast?, sl.end_ = (st.scene_start : ℚ) / src.fps)

/-- Invariant of the `_detect_black_frames` fold: every emitted segment
has a consistent duration of at least 2 seconds and starts at or after
the scan origin `a`; the pending run start also lies at or after `a`. -/
def ContentDetector.BlackInv (a : ℤ)
    (acc : List ContentDetector.BlackSeg × Option ℤ) : Prop :=
  (∀ seg ∈ acc.1, seg.duration = seg.end_ - seg.start ∧ 2 ≤ seg.duration ∧
    a ≤ seg.start ∧ seg.start < seg.end_) ∧
  ∀ t0 ∈ acc.2, a ≤ t0

/-- Invariant of the greedy selection fold of
`_extract_highlight_segments`: the used-times list mirrors the selected
starts, ids count up from 0, selected start times are pairwise at least
`2 * min_duration` apart, and every selected highlight carries the fixed
clamped duration. -/
def HighlightDetector.ExtractInv (m M : ℚ)
    (acc : List HighlightDetector.Highlight × List ℚ) : Prop :=
  acc.2 = acc.1.map HighlightDetector.Highlight.start ∧
  acc.1.map HighlightDetector.Highlight.id = List.range acc.1.length ∧
  List.Pairwise (fun a b => m * 2 ≤ |a - b|) acc.2 ∧
  ∀ h ∈ acc.1, h.duration = min M (max m 10) ∧ h.end_ = h.start + h.duration

/-- A 40-second scene record (duration outside `[3, 30]`). -/
def longScene : HighlightDetector.SceneRecord :=
  { start := 0, end_ := 40, duration := 40, brightness := 100,
    motion := 0, faces := 0, dialogues := 0 }

/-- A low-scoring scene starting at time 0. -/
def earlyDullScene : HighlightDetector.SceneRecord :=
  { start := 0, end_ := 40, duration := 40, brightness := 0,
    motion := 0, faces := 0, dialogues := 0 }

/-- A high-scoring scene starting at time 30. -/
def lateActionScene : HighlightDetector.SceneRecord :=
  { start := 30, end_ := 40, duration := 10, brightness := 100,
    motion := 25, faces := 0, dialogues := 0 }

/-! Helper lemmas about the Python-style ranges and truncation. -/

theorem pyInt_of_nonneg {q : ℚ} (h : 0 ≤ q) : pyInt q = ⌊q⌋ := if_pos h

theorem pyInt_nonneg {q : ℚ} (h : 0 ≤ q) : 0 ≤ pyInt q := by
  rw [pyInt_of_nonneg h]; exact Int.floor_nonneg.mpr h

theorem pyInt_cast_le {q : ℚ} (h : 0 ≤ q) : (pyInt q : ℚ) ≤ q := by
  rw [pyInt_of_nonneg h]; exact Int.floor_le q

theorem pyInt_cast_le_max (q : ℚ) : (pyInt q : ℚ) ≤ max q 0 := by
  unfold pyInt
  split
  · exact le_max_of_le_left (Int.floor_le q)
  · rename_i h
    refine le_max_of_le_right ?_
    have hq : q ≤ 0 := le_of_not_le h
    exact_mod_cast (Int.ceil_le).mpr (by exact_mod_cast hq)

theorem mem_pyRangeUp {a b t : ℤ} {s : ℕ} (ht : t ∈ pyRangeUp a b s) :
    ∃ k : ℕ, k < ((b - a).toNat + s - 1) / s ∧ t = a + (k : ℤ) * (s : ℤ) := by
  unfold pyRangeUp at ht
  obtain ⟨k, hk, heq⟩ := List.mem_map.mp ht
  exact ⟨k, List.mem_range.mp hk, heq.symm⟩

theorem pyRangeUp_bounds {a b t : ℤ} {s : ℕ} (hs : 0 < s)
    (ht : t ∈ pyRangeUp a b s) : a ≤ t ∧ t < b := by
  obtain ⟨k, hk, rfl⟩ := mem_pyRangeUp ht
  have h1 : (k + 1) * s ≤ (b - a).toNat + s - 1 :=
    (Nat.le_div_iff_mul_le hs).mp hk
  rw [Nat.succ_mul] at h1
  have h2 : k * s + 1 ≤ (b - a).toNat := by omega
  have h3 : ((k * s : ℕ) : ℤ) = (k : ℤ) * (s : ℤ) := by push_cast; ring
  constructor
  · have : (0 : ℤ) ≤ ((k * s : ℕ) : ℤ) := Int.natCast_nonneg _
    omega
  · omega

theorem pyRangeUp_ge {a b t : ℤ} {s : ℕ} (ht : t ∈ pyRangeUp a b s) : a ≤ t := by
  obtain ⟨k, _, rfl⟩ := mem_pyRangeUp ht
  have h3 : ((k * s : ℕ) : ℤ) = (k : ℤ) * (s : ℤ) := by push_cast; ring
  have : (0 : ℤ) ≤ ((k * s : ℕ) : ℤ) := Int.natCast_nonneg _
  omega

theorem mem_pyRangeDown {a b t : ℤ} {s : ℕ} (ht : t ∈ pyRangeDown a b s) :
    ∃ k : ℕ, k < ((a - b).toNat + s - 1) / s ∧ t = a - (k : ℤ) * (s : ℤ) := by
  unfold pyRangeDown at ht
  obtain ⟨k, hk, heq⟩ := List.mem_map.mp ht
  exact ⟨k, List.mem_range.mp hk, heq.symm⟩

theorem pyRangeDown_bounds {a b t : ℤ} {s : ℕ} (hs : 0 < s)
    (ht : t ∈ pyRangeDown a b s) : b < t ∧ t ≤ a := by
  obtain ⟨k, hk, rfl⟩ := mem_pyRangeDown ht
  have h1 : (k + 1) * s ≤ (a - b).toNat + s - 1 :=
    (Nat.le_div_iff_mul_le hs).mp hk
  rw [Nat.succ_mul] at h1
  have h2 : k * s + 1 ≤ (a - b).toNat := by omega
  have h3 : ((k * s : ℕ) : ℤ) = (k : ℤ) * (s : ℤ) := by push_cast; ring
  have h4 : (0 : ℤ) ≤ ((k * s : ℕ) : ℤ) := Int.natCast_nonneg _
  constructor
  · omega
  · omega

/-- `List.find?` over `List.range' s n` returns the least index in
`[s, s + n)` satisfying the predicate. -/
theorem find?_range'_eq_some {p : ℕ → Bool} {s n i : ℕ}
    (h : (List.range' s n).find? p = some i) :
    p i = true ∧ s ≤ i ∧ i < s + n ∧ ∀ j, s ≤ j → j < i → p j = false := by
  induction n generalizing s with
  | zero => simp at h
  | succ n ih =>
    rw [List.range'_succ] at h
    rw [List.find?_cons] at h
    rcases hp : p s with _ | _
    · rw [hp] at h
      obtain ⟨h1, h2, h3, h4⟩ := ih h
      exact ⟨h1, by omega, by omega, fun j hj1 hj2 => by
        rcases Nat.eq_or_lt_of_le hj1 with rfl | hj
        · exact hp
        · exact h4 j hj hj2⟩
    · rw [hp] at h
      simp only [Option.some.injEq] at h
      subst h
      exact ⟨hp, le_refl _, by omega, fun j hj1 hj2 => by omega⟩

theorem find?_range'_eq_none {p : ℕ → Bool} {s n : ℕ}
    (h : (List.range' s n).find? p = none) :
    ∀ j, s ≤ j → j < s + n → p j = false := by
  intro j hj1 hj2
  have hmem : j ∈ List.range' s n := by
    rw [List.mem_range']
    exact ⟨j - s, by omega, by omega⟩
  have := List.find?_eq_none.mp h j hmem
  simpa using this

namespace SceneAnalyzer

theorem scanInv_init (src : VideoSource) :
    ScanInv src ⟨[], 0, [], none⟩ := by
  refine ⟨List.chain'_nil, fun _ => rfl, ?_, ?_⟩ <;> simp

theorem scanInv_step (src : VideoSource) (threshold : ℚ) (st : ScanState)
    (frame_idx : ℕ) (h : ScanInv src st) :
    ScanInv src (sceneStep src threshold st frame_idx) := by
  obtain ⟨hchain, hempty, hhead, hlast⟩ := h
  unfold sceneStep
  rcases st.prev with _ | prev
  · exact ⟨hchain, hempty, hhead, hlast⟩
  · simp only
    split
    · refine ⟨?_, ?_, ?_, ?_⟩
      · rw [List.chain'_append]
        refine ⟨hchain, List.chain'_singleton _, ?_⟩
        intro x hx y hy
        simp only [List.head?_cons, Option.mem_def, Option.some.injEq] at hy
        subst hy
        exact hlast x hx
      · intro habs
        exact absurd habs (by simp)
      · intro s0 hs0
        rw [List.head?_concat] at hs0
        simp only [Option.mem_def, Option.some.injEq] at hs0
        subst hs0
        rcases hsc : st.scenes with _ | ⟨s1, rest⟩
        · simp only [hsc, List.head?_nil, Option.getD_none]
          show ((st.scene_start : ℚ) / src.fps) = 0
          rw [hempty hsc]
          simp
        · rw [hsc] at hhead
          simp only [List.head?_cons, Option.getD_some]
          exact hhead s1 rfl
      · intro sl hsl
        rw [List.getLast?_concat] at hsl
        simp only [Option.mem_def, Option.some.injEq] at hsl
        subst hsl
        rfl
    · exact ⟨hchain, hempty, hhead, hlast⟩

theorem scanInv_foldl (src : VideoSource) (threshold : ℚ) :
    ∀ (l : List ℕ) (st : ScanState), ScanInv src st →
      ScanInv src (l.foldl (sceneStep src threshold) st) := by
  intro l
  induction l with
  | nil => intro st h; exact h
  | cons a l ih =>
    intro st h
    exact ih _ (scanInv_step src threshold st a h)

theorem foldl_scene_frames_ne_nil (src : VideoSource) (threshold : ℚ) :
    ∀ (l : List ℕ) (st : ScanState), l ≠ [] →
      (l.foldl (sceneStep src threshold) st).scene_frames ≠ [] := by
  intro l
  induction l with
  | nil => intro st h; exact absurd rfl h
  | cons a l ih =>
    intro st _
    rcases l with _ | ⟨b, l'⟩
    · show (sceneStep src threshold st a).scene_frames ≠ []
      unfold sceneStep
      rcases st.prev with _ | prev <;> simp only
      · simp
      · split <;> simp
    · exact ih _ (by simp)

theorem mkScene_start (src : VideoSource) (nid a b : ℕ) (frames : List ℕ) :
    (mkScene src nid a b frames).start = (a : ℚ) / src.fps := rfl

theorem mkScene_end (src : VideoSource) (nid a b : ℕ) (frames : List ℕ) :
    (mkScene src nid a b frames).end_ = (b : ℚ) / src.fps := rfl

end SceneAnalyzer

/-- C1.  For every video source (positive sampling rate, non-empty
analyzed range) the scene list of `detect_scenes` is gapless and
ordered: the first scene starts at 0, each scene ends where the next
starts, and the last scene ends at `min(max_duration, totalDuration)`
seconds. -/
theorem detect_scenes_gapless (src : VideoSource) (max_duration : ℕ) (threshold : ℚ)
    (hfps : 0 < src.fps)
    (hnz : 0 < min (max_duration * src.fps) src.frame_count) :
    SceneAnalyzer.detect_scenes src max_duration threshold ≠ [] ∧
    (∀ s0 ∈ (SceneAnalyzer.detect_scenes src max_duration threshold).head?,
      s0.start = 0) ∧
    List.Chain' (fun a b => a.end_ = b.start)
      (SceneAnalyzer.detect_scenes src max_duration threshold) ∧
    ∀ sl ∈ (SceneAnalyzer.detect_scenes src max_duration threshold).getLast?,
      sl.end_ = min (max_duration : ℚ) ((src.frame_count : ℚ) / src.fps) := by
  classical
  have hfpos : (0 : ℚ) < src.fps := by exact_mod_cast hfps
  have hfne : (src.fps : ℚ) ≠ 0 := ne_of_gt hfpos
  simp only [SceneAnalyzer.detect_scenes]
  set mf := min (max_duration * src.fps) src.frame_count with hmf
  set samples := List.range' 0 ((mf + src.fps - 1) / src.fps) src.fps with hsamples
  set st := samples.foldl (SceneAnalyzer.sceneStep src threshold) ⟨[], 0, [], none⟩
    with hst
  have hinv : SceneAnalyzer.ScanInv src st :=
    SceneAnalyzer.scanInv_foldl src threshold samples _ (SceneAnalyzer.scanInv_init src)
  have hsne : samples ≠ [] := by
    rw [hsamples]
    intro habs
    rw [List.range'_eq_nil] at habs
    have : 0 < (mf + src.fps - 1) / src.fps := Nat.div_pos (by omega) hfps
    omega
  have hfr : st.scene_frames ≠ [] :=
    SceneAnalyzer.foldl_scene_frames_ne_nil src threshold samples _ hsne
  have hfr' : ¬ (st.scene_frames.isEmpty = true) := by
    simpa [List.isEmpty_iff] using hfr
  rw [if_neg hfr']
  obtain ⟨hchain, hempty, hhead, hlast⟩ := hinv
  have harith : ((mf : ℕ) : ℚ) / src.fps
      = min (max_duration : ℚ) ((src.frame_count : ℚ) / src.fps) := by
    rcases le_total (max_duration * src.fps) src.frame_count with hle | hle
    · have h1 : ((mf : ℕ) : ℚ) = (max_duration : ℚ) * src.fps := by
        rw [hmf, min_eq_left hle]; push_cast; ring
      have h2 : (max_duration : ℚ) ≤ (src.frame_count : ℚ) / src.fps := by
        rw [le_div_iff₀ hfpos]
        exact_mod_cast hle
      rw [h1, mul_div_cancel_right₀ _ hfne, min_eq_left h2]
    · have h1 : ((mf : ℕ) : ℚ) = (src.frame_count : ℚ) := by
        rw [hmf, min_eq_right hle]
      have h2 : (src.frame_count : ℚ) / src.fps ≤ (max_duration : ℚ) := by
        rw [div_le_iff₀ hfpos]
        exact_mod_cast hle
      rw [h1, min_eq_right h2]
  refine ⟨by simp, ?_, ?_, ?_⟩
  · intro s0 hs0
    rw [List.head?_concat] at hs0
    simp only [Option.mem_def, Option.some.injEq] at hs0
    subst hs0
    rcases hh : st.scenes.head? with _ | s1
    · rw [List.head?_eq_none_iff] at hh
      simp only [hh, List.head?_nil, Option.getD_none, SceneAnalyzer.mkScene_start]
      rw [hempty hh]
      simp
    · simp only [hh, Option.getD_some]
      exact hhead s1 hh
  · rw [List.chain'_append]
    refine ⟨hchain, List.chain'_singleton _, ?_⟩
    intro x hx y hy
    simp only [List.head?_cons, Option.mem_def, Option.some.injEq] at hy
    subst hy
    rw [SceneAnalyzer.mkScene_start]
    exact hlast x hx
  · intro sl hsl
    rw [List.getLast?_concat] at hsl
    simp only [Option.mem_def, Option.some.injEq] at hsl
    subst hsl
    rw [SceneAnalyzer.mkScene_end]
    exact harith

namespace ContentDetector

theorem pyInt_zero : pyInt 0 = 0 := by
  rw [pyInt_of_nonneg le_rfl]
  exact Int.floor_zero

theorem firstDrop_some {sc : List ℚ} {i : ℕ} (h : firstDrop sc = some i) :
    1 ≤ i ∧ i < sc.length ∧
      sc.getD i 0 < sc.getD (i - 1) 0 * (1 / 2) ∧
      ∀ j, 1 ≤ j → j < i → ¬ (sc.getD j 0 < sc.getD (j - 1) 0 * (1 / 2)) := by
  unfold firstDrop at h
  rw [List.range_eq_range'] at h
  obtain ⟨hp, _, hlt, hmin⟩ := find?_range'_eq_some h
  rw [Bool.and_eq_true, decide_eq_true_eq, decide_eq_true_eq] at hp
  refine ⟨hp.1, by omega, hp.2, ?_⟩
  intro j hj1 hj2 hcontra
  have htrue : (decide (1 ≤ j) &&
      decide (sc.getD j 0 < sc.getD (j - 1) 0 * (1 / 2))) = true := by
    rw [Bool.and_eq_true, decide_eq_true_eq, decide_eq_true_eq]
    exact ⟨hj1, hcontra⟩
  have hfalse := hmin j (by omega) hj2
  rw [hfalse] at htrue
  exact absurd htrue (by simp)

theorem firstDrop_none {sc : List ℚ} (h : firstDrop sc = none) :
    ∀ j, 1 ≤ j → j < sc.length →
      ¬ (sc.getD j 0 < sc.getD (j - 1) 0 * (1 / 2)) := by
  unfold firstDrop at h
  rw [List.range_eq_range'] at h
  intro j hj1 hj2 hcontra
  have hfalse := find?_range'_eq_none h j (by omega) (by omega)
  have htrue : (decide (1 ≤ j) &&
      decide (sc.getD j 0 < sc.getD (j - 1) 0 * (1 / 2))) = true := by
    rw [Bool.and_eq_true, decide_eq_true_eq, decide_eq_true_eq]
    exact ⟨hj1, hcontra⟩
  rw [hfalse] at htrue
  exact absurd htrue (by simp)

theorem freq_length (src : VideoSource) (start stop : ℚ) :
    (_analyze_scene_change_frequency src start stop).length
      = ((pyInt stop - pyInt start).toNat + 9) / 10 := by
  unfold _analyze_scene_change_frequency pyRangeUp
  rw [List.length_map, List.length_map, List.length_range]
  omega

/-- Unfolding equation of `_detect_intro` keeping the scan abstract. -/
theorem detect_intro_eq (src : VideoSource) :
    _detect_intro src =
      (match firstDrop (_analyze_scene_change_frequency src 0
          (min 180 ((src.frame_count : ℚ) / src.fps))) with
        | some i => ((i * 10 : ℕ) : ℚ)
        | none => min 30 (min 180 ((src.frame_count : ℚ) / src.fps))) := rfl

/-- Unfolding equation of `_detect_outro` keeping the scan abstract. -/
theorem detect_outro_eq (src : VideoSource) :
    _detect_outro src =
      (match (pyRangeDown (pyInt ((src.frame_count : ℚ) / src.fps - 30))
          (pyInt ((src.frame_count : ℚ) / src.fps
            - min 300 ((src.frame_count : ℚ) / src.fps))) 10).find?
          (fun t => _has_rolling_credits src t ||
            (_is_black_frame src t &&
              _is_ending_content src t ((src.frame_count : ℚ) / src.fps))) with
        | some t => (t : ℚ)
        | none => max ((src.frame_count : ℚ) / src.fps - 60)
            ((src.frame_count : ℚ) / src.fps * (95 / 100))) := rfl

/-- Both bounds of `_detect_intro`: the intro end is nonnegative and
never exceeds the total duration. -/
theorem detect_intro_bounds (src : VideoSource) :
    0 ≤ _detect_intro src ∧
      _detect_intro src ≤ (src.frame_count : ℚ) / src.fps := by
  have htot : (0 : ℚ) ≤ (src.frame_count : ℚ) / src.fps := by positivity
  have hE0 : (0 : ℚ) ≤ min 180 ((src.frame_count : ℚ) / src.fps) :=
    le_min (by norm_num) htot
  have hEt : min 180 ((src.frame_count : ℚ) / src.fps)
      ≤ (src.frame_count : ℚ) / src.fps := min_le_right _ _
  rw [detect_intro_eq]
  set sc := _analyze_scene_change_frequency src 0
    (min 180 ((src.frame_count : ℚ) / src.fps)) with hsc
  rcases hfd : firstDrop sc with _ | i
  · exact ⟨le_min (by norm_num) hE0, le_trans (min_le_right _ _) hEt⟩
  · obtain ⟨_, hilen, _, _⟩ := firstDrop_some hfd
    rw [hsc, freq_length, pyInt_zero] at hilen
    have hi10 : (i + 1) * 10 ≤
        (pyInt (min 180 ((src.frame_count : ℚ) / src.fps)) - 0).toNat + 9 :=
      (Nat.le_div_iff_mul_le (by norm_num)).mp hilen
    rw [Nat.succ_mul] at hi10
    have hlt : i * 10 < (pyInt (min 180 ((src.frame_count : ℚ) / src.fps))).toNat := by
      omega
    refine ⟨by positivity, ?_⟩
    show ((i * 10 : ℕ) : ℚ) ≤ (src.frame_count : ℚ) / src.fps
    calc ((i * 10 : ℕ) : ℚ)
        ≤ (((pyInt (min 180 ((src.frame_count : ℚ) / src.fps))).toNat : ℕ) : ℚ) := by
          exact_mod_cast le_of_lt hlt
      _ = ((pyInt (min 180 ((src.frame_count : ℚ) / src.fps)) : ℤ) : ℚ) := by
          rw [← Int.toNat_of_nonneg (pyInt_nonneg hE0)]
          norm_cast
      _ ≤ min 180 ((src.frame_count : ℚ) / src.fps) := pyInt_cast_le hE0
      _ ≤ (src.frame_count : ℚ) / src.fps := hEt

/-- Both bounds of `_detect_outro`: the outro start is nonnegative and
never exceeds the total duration. -/
theorem detect_outro_bounds (src : VideoSource) :
    0 ≤ _detect_outro src ∧
      _detect_outro src ≤ (src.frame_count : ℚ) / src.fps := by
  have htot : (0 : ℚ) ≤ (src.frame_count : ℚ) / src.fps := by positivity
  rw [detect_outro_eq]
  set scan := pyRangeDown (pyInt ((src.frame_count : ℚ) / src.fps - 30))
    (pyInt ((src.frame_count : ℚ) / src.fps
      - min 300 ((src.frame_count : ℚ) / src.fps))) 10 with hscan
  rcases hfd : scan.find?
      (fun t => _has_rolling_credits src t ||
        (_is_black_frame src t &&
          _is_ending_content src t ((src.frame_count : ℚ) / src.fps))) with _ | t
  · constructor
    · refine le_max_of_le_right ?_
      positivity
    · refine max_le (by linarith) ?_
      exact mul_le_of_le_one_right htot (by norm_num)
  · have hmem := List.mem_of_find?_eq_some hfd
    rw [hscan] at hmem
    have hb := pyRangeDown_bounds (by norm_num) hmem
    have hbase : (0 : ℚ) ≤ (src.frame_count : ℚ) / src.fps
        - min 300 ((src.frame_count : ℚ) / src.fps) := by
      have := min_le_right (300 : ℚ) ((src.frame_count : ℚ) / src.fps)
      linarith
    have h0 : 0 ≤ pyInt ((src.frame_count : ℚ) / src.fps
        - min 300 ((src.frame_count : ℚ) / src.fps)) := pyInt_nonneg hbase
    constructor
    · show (0 : ℚ) ≤ (t : ℚ)
      have : (0 : ℤ) < t := lt_of_le_of_lt h0 hb.1
      exact_mod_cast le_of_lt this
    · show (t : ℚ) ≤ (src.frame_count : ℚ) / src.fps
      have h1 : (t : ℚ) ≤ ((pyInt ((src.frame_count : ℚ) / src.fps - 30) : ℤ) : ℚ) := by
        exact_mod_cast hb.2
      have h2 := pyInt_cast_le_max ((src.frame_count : ℚ) / src.fps - 30)
      have h3 : max ((src.frame_count : ℚ) / src.fps - 30) 0
          ≤ (src.frame_count : ℚ) / src.fps := max_le (by linarith) htot
      linarith

end ContentDetector

/-- C2 (amended).  For every video source, `introEnd` and `outroStart`
each lie within `[0, totalDuration]`; the middle inequality
`introEnd ≤ outroStart` of the claim does not hold in general. -/
theorem boundaries_bounds (src : VideoSource) (sample_duration : ℕ) :
    0 ≤ (ContentDetector.detect_content_boundaries src sample_duration).intro.end_ ∧
    (ContentDetector.detect_content_boundaries src sample_duration).intro.end_
      ≤ (ContentDetector.detect_content_boundaries src sample_duration).total_duration ∧
    0 ≤ (ContentDetector.detect_content_boundaries src sample_duration).outro.start ∧
    (ContentDetector.detect_content_boundaries src sample_duration).outro.start
      ≤ (ContentDetector.detect_content_boundaries src sample_duration).total_duration := by
  have h1 := ContentDetector.detect_intro_bounds src
  have h2 := ContentDetector.detect_outro_bounds src
  simp only [ContentDetector.detect_content_boundaries]
  exact ⟨h1.1, h1.2, h2.1, h2.2⟩

/-- C7.  `_detect_intro` follows the documented policy: scanning the
10-second cut-frequency windows of the first `min(180, totalDuration)`
seconds in order, the first window `i ≥ 1` whose cut frequency falls
below 50% of the previous window's yields `introEnd = i * 10`; when no
window drops, `introEnd = min(30, analyzedSpan)`. -/
theorem intro_detection_follows_spec (src : VideoSource) :
    (∃ i, 1 ≤ i ∧
        i < (ContentDetector._analyze_scene_change_frequency src 0
              (min 180 ((src.frame_count : ℚ) / src.fps))).length ∧
        (ContentDetector._analyze_scene_change_frequency src 0
            (min 180 ((src.frame_count : ℚ) / src.fps))).getD i 0
          < (ContentDetector._analyze_scene_change_frequency src 0
              (min 180 ((src.frame_count : ℚ) / src.fps))).getD (i - 1) 0 * (1 / 2) ∧
        (∀ j, 1 ≤ j → j < i →
          ¬ ((ContentDetector._analyze_scene_change_frequency src 0
                (min 180 ((src.frame_count : ℚ) / src.fps))).getD j 0
              < (ContentDetector._analyze_scene_change_frequency src 0
                  (min 180 ((src.frame_count : ℚ) / src.fps))).getD (j - 1) 0 * (1 / 2))) ∧
        ContentDetector._detect_intro src = ((i * 10 : ℕ) : ℚ)) ∨
    ((∀ j, 1 ≤ j →
        j < (ContentDetector._analyze_scene_change_frequency src 0
              (min 180 ((src.frame_count : ℚ) / src.fps))).length →
        ¬ ((ContentDetector._analyze_scene_change_frequency src 0
              (min 180 ((src.frame_count : ℚ) / src.fps))).getD j 0
            < (ContentDetector._analyze_scene_change_frequency src 0
                (min 180 ((src.frame_count : ℚ) / src.fps))).getD (j - 1) 0 * (1 / 2))) ∧
      ContentDetector._detect_intro src
        = min 30 (min 180 ((src.frame_count : ℚ) / src.fps))) := by
  set sc := ContentDetector._analyze_scene_change_frequency src 0
    (min 180 ((src.frame_count : ℚ) / src.fps)) with hsc
  rcases hfd : ContentDetector.firstDrop sc with _ | i
  · right
    refine ⟨ContentDetector.firstDrop_none hfd, ?_⟩
    rw [ContentDetector.detect_intro_eq, ← hsc, hfd]
  · left
    obtain ⟨h1, h2, h3, h4⟩ := ContentDetector.firstDrop_some hfd
    refine ⟨i, h1, h2, h3, h4, ?_⟩
    rw [ContentDetector.detect_intro_eq, ← hsc, hfd]

namespace ContentDetector

theorem blackStep_inv (src : VideoSource) (a t : ℤ) (segs : List BlackSeg)
    (cur : Option ℤ) (ht : a ≤ t) (h : BlackInv a (segs, cur)) :
    BlackInv a (blackStep src (segs, cur) t) := by
  obtain ⟨hsegs, hcur⟩ := h
  have hsegs' : ∀ seg ∈ segs,
      seg.duration = seg.end_ - seg.start ∧ 2 ≤ seg.duration ∧
        a ≤ seg.start ∧ seg.start < seg.end_ := hsegs
  unfold blackStep
  rcases cur with _ | s
  · dsimp only
    split
    · refine ⟨hsegs', ?_⟩
      intro t0 ht0
      simp only [Option.mem_def, Option.some.injEq] at ht0
      subst ht0
      exact ht
    · exact ⟨hsegs', by intro t0 ht0; simp at ht0⟩
  · have has : a ≤ s := hcur s rfl
    dsimp only
    split
    · exact ⟨hsegs', by
        intro t0 ht0
        simp only [Option.mem_def, Option.some.injEq] at ht0
        subst ht0
        exact has⟩
    · split
      · refine ⟨?_, ?_⟩
        · intro seg hseg
          rcases List.mem_append.mp hseg with hseg | hseg
          · exact hsegs' seg hseg
          · simp only [List.mem_singleton] at hseg
            subst hseg
            rename_i hge
            refine ⟨rfl, ?_, ?_, ?_⟩
            · show (2 : ℤ) ≤ t - s
              omega
            · show a ≤ s
              exact has
            · show s < t
              omega
        · intro t0 ht0
          simp at ht0
      · refine ⟨hsegs', ?_⟩
        intro t0 ht0
        simp at ht0

theorem black_foldl_inv (src : VideoSource) (a : ℤ) :
    ∀ (l : List ℤ) (acc : List BlackSeg × Option ℤ), (∀ t ∈ l, a ≤ t) →
      BlackInv a acc → BlackInv a (l.foldl (blackStep src) acc) := by
  intro l
  induction l with
  | nil => intro acc _ h; exact h
  | cons x l ih =>
    intro acc hmem h
    exact ih _ (fun t ht => hmem t (List.mem_cons_of_mem _ ht))
      (blackStep_inv src a x acc.1 acc.2 (hmem x (List.mem_cons_self _ _)) h)

/-- Every segment reported by `_detect_black_frames` has a consistent
duration of at least 2 seconds and starts no earlier than `int(start)`:
the scan never looks before its lower bound. -/
theorem detect_black_frames_inv (src : VideoSource) (start stop : ℚ) :
    ∀ seg ∈ _detect_black_frames src start stop,
      seg.duration = seg.end_ - seg.start ∧ 2 ≤ seg.duration ∧
        pyInt start ≤ seg.start ∧ seg.start < seg.end_ := by
  intro seg hseg
  have h := black_foldl_inv src (pyInt start)
    (pyRangeUp (pyInt start) (pyInt stop) 5) ([], none)
    (fun t ht => pyRangeUp_ge ht) ⟨by simp, by simp⟩
  exact h.1 seg hseg

end ContentDetector

namespace HighlightDetector

/-- Unfolding equation of `detect_highlights` in raw-video mode. -/
theorem detect_highlights_none_eq (src : VideoSource) (maxh : ℕ) (m M : ℚ) :
    detect_highlights src none maxh m M =
      _extract_highlight_segments
        ((List.range' 0 ((src.frame_count + src.fps - 1) / src.fps) src.fps).map
          (sampleMetric src)) src.fps maxh m M := rfl

/-- An empty scene list is falsy in Python, so it selects the
raw-video-driven mode exactly like `None`. -/
theorem detect_highlights_empty_eq (src : VideoSource) (maxh : ℕ) (m M : ℚ) :
    detect_highlights src (some []) maxh m M = detect_highlights src none maxh m M :=
  rfl

/-- Unfolding equation of `_extract_highlight_segments`. -/
theorem extract_eq (metrics : List Metric) (fps maxh : ℕ) (m M : ℚ) :
    _extract_highlight_segments metrics fps maxh m M =
      List.insertionSort (fun a b => a.start ≤ b.start)
        (((List.insertionSort (fun a b => b.score ≤ a.score) metrics).foldl
          (extractStep maxh m M) ([], [])).1) := rfl

/-- Unfolding equation of `_detect_from_scenes`. -/
theorem detect_from_scenes_eq (scenes : List SceneRecord) (maxh : ℕ) :
    _detect_from_scenes scenes maxh =
      buildSceneHighlights 0
        ((List.insertionSort (fun a b => b.2 ≤ a.2)
          (scenes.map (fun s => (s, _calculate_scene_score s)))).take maxh) := rfl

theorem extractStep_inv (maxh : ℕ) (m M : ℚ) (acc : List Highlight × List ℚ)
    (metric : Metric) (h : ExtractInv m M acc) :
    ExtractInv m M (extractStep maxh m M acc metric) := by
  obtain ⟨hused, hids, hpw, hdur⟩ := h
  unfold extractStep
  split
  · exact ⟨hused, hids, hpw, hdur⟩
  split
  · exact ⟨hused, hids, hpw, hdur⟩
  rename_i hany
  refine ⟨?_, ?_, ?_, ?_⟩
  · show acc.2 ++ [metric.time] = (acc.1 ++ [_]).map Highlight.start
    rw [List.map_append, hused]
    rfl
  · show (acc.1 ++ [_]).map Highlight.id = List.range (acc.1 ++ [_]).length
    rw [List.map_append, hids, List.length_append]
    simp [List.range_succ]
  · show List.Pairwise _ (acc.2 ++ [metric.time])
    rw [List.pairwise_append]
    refine ⟨hpw, List.pairwise_singleton _ _, ?_⟩
    intro u hu b hb
    simp only [List.mem_singleton] at hb
    subst hb
    rw [List.any_eq_true] at hany
    push_neg at hany
    have hnlt : ¬ (|metric.time - u| < m * 2) := by simpa using hany u hu
    show m * 2 ≤ |u - metric.time|
    rw [abs_sub_comm]
    exact le_of_not_lt hnlt
  · intro hl hmem
    rcases List.mem_append.mp hmem with hmem | hmem
    · exact hdur hl hmem
    · simp only [List.mem_singleton] at hmem
      subst hmem
      exact ⟨rfl, rfl⟩

theorem extract_foldl_inv (maxh : ℕ) (m M : ℚ) :
    ∀ (l : List Metric) (acc : List Highlight × List ℚ), ExtractInv m M acc →
      ExtractInv m M (l.foldl (extractStep maxh m M) acc) := by
  intro l
  induction l with
  | nil => intro acc h; exact h
  | cons x l ih =>
    intro acc h
    exact ih _ (extractStep_inv maxh m M acc x h)

theorem extract_invariants (metrics : List Metric) (maxh : ℕ) (m M : ℚ) :
    ExtractInv m M ((List.insertionSort (fun a b => b.score ≤ a.score) metrics).foldl
      (extractStep maxh m M) ([], [])) :=
  extract_foldl_inv maxh m M _ _ ⟨rfl, rfl, List.Pairwise.nil, by simp⟩

theorem extract_perm (metrics : List Metric) (fps maxh : ℕ) (m M : ℚ) :
    (_extract_highlight_segments metrics fps maxh m M).Perm
      (((List.insertionSort (fun a b => b.score ≤ a.score) metrics).foldl
        (extractStep maxh m M) ([], [])).1) := by
  rw [extract_eq]
  exact List.perm_insertionSort _ _

theorem extract_mem_props (metrics : List Metric) (fps maxh : ℕ) (m M : ℚ)
    (hl : Highlight) (hmem : hl ∈ _extract_highlight_segments metrics fps maxh m M) :
    hl.duration = min M (max m 10) ∧ hl.end_ = hl.start + hl.duration :=
  (extract_invariants metrics maxh m M).2.2.2 hl
    ((extract_perm metrics fps maxh m M).mem_iff.mp hmem)

theorem extract_pairwise_gap (metrics : List Metric) (fps maxh : ℕ) (m M : ℚ) :
    (_extract_highlight_segments metrics fps maxh m M).Pairwise
      (fun a b => m * 2 ≤ |a.start - b.start|) := by
  obtain ⟨hused, _, hpw, _⟩ := extract_invariants metrics maxh m M
  rw [hused, List.pairwise_map] at hpw
  have hsymm : ∀ {x y : Highlight},
      m * 2 ≤ |x.start - y.start| → m * 2 ≤ |y.start - x.start| := by
    intro x y hxy
    rwa [abs_sub_comm]
  exact ((extract_perm metrics fps maxh m M).pairwise_iff hsymm).mpr hpw

theorem extract_nonoverlapping (metrics : List Metric) (fps maxh : ℕ) (m M : ℚ)
    (hdur : min M (max m 10) ≤ m * 2) :
    (_extract_highlight_segments metrics fps maxh m M).Pairwise
      (fun a b => a.end_ ≤ b.start ∨ b.end_ ≤ a.start) := by
  refine (extract_pairwise_gap metrics fps maxh m M).imp_of_mem ?_
  intro a b ha hb hgap
  obtain ⟨hda, hea⟩ := extract_mem_props metrics fps maxh m M a ha
  obtain ⟨hdb, heb⟩ := extract_mem_props metrics fps maxh m M b hb
  have hd : a.duration ≤ |a.start - b.start| := le_trans (hda ▸ hdur) hgap
  rcases le_abs.mp hd with hcase | hcase
  · right
    rw [heb, hdb, ← hda]
    linarith
  · left
    rw [hea]
    linarith

theorem extract_sorted_by_start (metrics : List Metric) (fps maxh : ℕ) (m M : ℚ) :
    (_extract_highlight_segments metrics fps maxh m M).Pairwise
      (fun a b => a.start ≤ b.start) := by
  rw [extract_eq]
  haveI : IsTotal Highlight (fun a b => a.start ≤ b.start) :=
    ⟨fun a b => le_total _ _⟩
  haveI : IsTrans Highlight (fun a b => a.start ≤ b.start) :=
    ⟨fun _ _ _ => le_trans⟩
  exact List.sorted_insertionSort _ _

theorem extract_ids_perm (metrics : List Metric) (fps maxh : ℕ) (m M : ℚ) :
    ((_extract_highlight_segments metrics fps maxh m M).map Highlight.id).Perm
      (List.range (_extract_highlight_segments metrics fps maxh m M).length) := by
  have hperm := extract_perm metrics fps maxh m M
  have hids := (extract_invariants metrics maxh m M).2.1
  have h1 := hperm.map Highlight.id
  rw [hids] at h1
  rw [hperm.length_eq]
  exact h1

theorem buildSceneHighlights_map_score (i : ℕ) (l : List (SceneRecord × ℚ)) :
    (buildSceneHighlights i l).map Highlight.score = l.map Prod.snd := by
  induction l generalizing i with
  | nil => rfl
  | cons x l ih =>
    rcases x with ⟨s, sc⟩
    simp [buildSceneHighlights, ih]

theorem buildSceneHighlights_map_id (i : ℕ) (l : List (SceneRecord × ℚ)) :
    (buildSceneHighlights i l).map Highlight.id = List.range' i l.length := by
  induction l generalizing i with
  | nil => rfl
  | cons x l ih =>
    rcases x with ⟨s, sc⟩
    simp [buildSceneHighlights, ih, List.range'_succ]

theorem buildSceneHighlights_length (i : ℕ) (l : List (SceneRecord × ℚ)) :
    (buildSceneHighlights i l).length = l.length := by
  induction l generalizing i with
  | nil => rfl
  | cons x l ih =>
    rcases x with ⟨s, sc⟩
    simp [buildSceneHighlights, ih]

theorem detect_from_scenes_ids (scenes : List SceneRecord) (maxh : ℕ) :
    (_detect_from_scenes scenes maxh).map Highlight.id
      = List.range (_detect_from_scenes scenes maxh).length := by
  rw [detect_from_scenes_eq, buildSceneHighlights_map_id, buildSceneHighlights_length,
    List.range_eq_range']

theorem detect_from_scenes_sorted_by_score (scenes : List SceneRecord) (maxh : ℕ) :
    (_detect_from_scenes scenes maxh).Pairwise (fun a b => b.score ≤ a.score) := by
  rw [detect_from_scenes_eq]
  have hsorted : (List.insertionSort (fun a b : SceneRecord × ℚ => b.2 ≤ a.2)
      (scenes.map (fun s => (s, _calculate_scene_score s)))).Pairwise
        (fun a b => b.2 ≤ a.2) := by
    haveI : IsTotal (SceneRecord × ℚ) (fun a b => b.2 ≤ a.2) :=
      ⟨fun a b => le_total _ _⟩
    haveI : IsTrans (SceneRecord × ℚ) (fun a b => b.2 ≤ a.2) :=
      ⟨fun _ _ _ h1 h2 => le_trans h2 h1⟩
    exact List.sorted_insertionSort _ _
  have htake := List.Pairwise.sublist (List.take_sublist maxh _) hsorted
  have hmap : List.Pairwise (fun a b : ℚ => b ≤ a)
      ((buildSceneHighlights 0 ((List.insertionSort
        (fun a b : SceneRecord × ℚ => b.2 ≤ a.2)
        (scenes.map (fun s => (s, _calculate_scene_score s)))).take maxh)).map
          Highlight.score) := by
    rw [buildSceneHighlights_map_score, List.pairwise_map]
    exact htake
  rw [List.pairwise_map] at hmap
  exact hmap

end HighlightDetector

/-- C3 (amended).  In raw-video-driven mode, no two returned highlights
overlap provided the fixed highlight duration
`min(maxDuration, max(minDuration, 10))` does not exceed the greedy
rejection radius `2 * minDuration` (in particular whenever
`minDuration ≥ 5`); with smaller `minDuration` the selection admits
overlapping segments. -/
theorem highlights_nonoverlapping_of_gap (src : VideoSource) (maxh : ℕ) (m M : ℚ)
    (hdur : min M (max m 10) ≤ m * 2) :
    (HighlightDetector.detect_highlights src none maxh m M).Pairwise
      (fun a b => a.end_ ≤ b.start ∨ b.end_ ≤ a.start) := by
  rw [HighlightDetector.detect_highlights_none_eq]
  exact HighlightDetector.extract_nonoverlapping _ _ _ _ _ hdur

/-- C4 (amended).  In raw-video-driven mode (with
`minDuration ≤ maxDuration`) every returned highlight has the fixed
duration `min(maxDuration, max(minDuration, 10))`, which lies in
`[minDuration, maxDuration]`; in scene-driven mode start/end are taken
verbatim from the scene, so the duration bound does not hold there. -/
theorem raw_highlight_durations (src : VideoSource) (maxh : ℕ) (m M : ℚ)
    (hmM : m ≤ M) :
    ∀ hl ∈ HighlightDetector.detect_highlights src none maxh m M,
      hl.duration = min M (max m 10) ∧ m ≤ hl.duration ∧ hl.duration ≤ M ∧
        hl.end_ = hl.start + hl.duration := by
  intro hl hmem
  rw [HighlightDetector.detect_highlights_none_eq] at hmem
  obtain ⟨hd, he⟩ := HighlightDetector.extract_mem_props _ _ _ _ _ hl hmem
  refine ⟨hd, ?_, ?_, he⟩
  · rw [hd]
    exact le_min hmM (le_max_left _ _)
  · rw [hd]
    exact min_le_left _ _

/-- C5 (amended).  The raw-video-driven mode re-sorts its output by start
ascending, but ids are assigned in score-selection order before that
sort, so they form a permutation of `0 .. n-1` rather than being
sequential in time order; the scene-driven mode is returned in
descending-score order (ids sequential from 0 in that order) and is not
re-sorted by start. -/
theorem highlights_order_and_ids (src : VideoSource) (maxh : ℕ) (m M : ℚ)
    (scenes : List HighlightDetector.SceneRecord) :
    (HighlightDetector.detect_highlights src none maxh m M).Pairwise
      (fun a b => a.start ≤ b.start) ∧
    ((HighlightDetector.detect_highlights src none maxh m M).map
        HighlightDetector.Highlight.id).Perm
      (List.range (HighlightDetector.detect_highlights src none maxh m M).length) ∧
    (HighlightDetector._detect_from_scenes scenes maxh).map
        HighlightDetector.Highlight.id
      = List.range (HighlightDetector._detect_from_scenes scenes maxh).length ∧
    (HighlightDetector._detect_from_scenes scenes maxh).Pairwise
      (fun a b => b.score ≤ a.score) := by
  refine ⟨?_, ?_, HighlightDetector.detect_from_scenes_ids scenes maxh,
    HighlightDetector.detect_from_scenes_sorted_by_score scenes maxh⟩
  · rw [HighlightDetector.detect_highlights_none_eq]
    exact HighlightDetector.extract_sorted_by_start _ _ _ _ _
  · rw [HighlightDetector.detect_highlights_none_eq]
    exact HighlightDetector.extract_ids_perm _ _ _ _ _

/-- C6.  The scene-driven highlight score is the documented weighted sum:
30/20/5 points for the motion bands `>20`/`>10`/otherwise, 15 points per
face, 10 points per dialogue segment, 20 points for a duration in
`[5, 20]` seconds (10 for `[3, 30]`), and 10 points for a brightness in
`[50, 150]`. -/
theorem scene_score_formula (scene : HighlightDetector.SceneRecord) :
    HighlightDetector._calculate_scene_score scene =
      (if scene.motion > 20 then 30 else if scene.motion > 10 then 20 else 5) +
        15 * (scene.faces : ℚ) + 10 * (scene.dialogues : ℚ) +
        (if 5 ≤ scene.duration ∧ scene.duration ≤ 20 then 20
         else if 3 ≤ scene.duration ∧ scene.duration ≤ 30 then 10 else 0) +
        (if 50 ≤ scene.brightness ∧ scene.brightness ≤ 150 then 10 else 0) := by
  simp only [HighlightDetector._calculate_scene_score]
  ring

/-- C9 (amended).  `detect_highlights` performs no validation of
`maxDuration < minDuration`: it returns normally and every raw-mode
highlight receives the silently clamped duration
`min(maxDuration, max(minDuration, 10)) = maxDuration`, which is below
`minDuration`; no invalid-configuration condition is raised. -/
theorem misconfig_silently_clamped (src : VideoSource) (maxh : ℕ) (m M : ℚ)
    (hlt : M < m) :
    ∀ hl ∈ HighlightDetector.detect_highlights src none maxh m M,
      hl.duration = M ∧ hl.duration < m := by
  intro hl hmem
  rw [HighlightDetector.detect_highlights_none_eq] at hmem
  obtain ⟨hd, _⟩ := HighlightDetector.extract_mem_props _ _ _ _ _ hl hmem
  have hmin : min M (max m 10) = M :=
    min_eq_left (le_trans (le_of_lt hlt) (le_max_left _ _))
  rw [hmin] at hd
  exact ⟨hd, lt_of_eq_of_lt hd hlt⟩

section ConcreteEvaluations

attribute [local semireducible] Rat.mul Rat.inv Rat.add Rat.sub

/-- C1 witness: `detect_scenes_gapless` instantiated on the 3-second
flat source with `max_duration = 10` and `threshold = 30`. -/
theorem detect_scenes_gapless_witness :
    0 < flatSource.fps ∧ 0 < min (10 * flatSource.fps) flatSource.frame_count ∧
    (SceneAnalyzer.detect_scenes flatSource 10 30 ≠ [] ∧
      (∀ s0 ∈ (SceneAnalyzer.detect_scenes flatSource 10 30).head?, s0.start = 0) ∧
      List.Chain' (fun a b => a.end_ = b.start)
        (SceneAnalyzer.detect_scenes flatSource 10 30) ∧
      ∀ sl ∈ (SceneAnalyzer.detect_scenes flatSource 10 30).getLast?,
        sl.end_ = min (10 : ℚ) ((flatSource.frame_count : ℚ) / flatSource.fps)) :=
  ⟨by decide, by decide,
    detect_scenes_gapless flatSource 10 30 (by decide) (by decide)⟩

/-- C2 counterexample: on the 50-second `strobeSource` the intro default
(30 seconds) exceeds the outro found by the backward scan (20 seconds),
so `introEnd ≤ outroStart` fails. -/
theorem intro_exceeds_outro_on_strobe :
    (ContentDetector.detect_content_boundaries strobeSource 600).intro.end_ = 30 ∧
    (ContentDetector.detect_content_boundaries strobeSource 600).outro.start = 20 ∧
    ¬ ((ContentDetector.detect_content_boundaries strobeSource 600).intro.end_
        ≤ (ContentDetector.detect_content_boundaries strobeSource 600).outro.start) :=
  ⟨by decide, by decide, by decide⟩

/-- C3 counterexample: with the default `minDuration = 3` the greedy
selection accepts samples 6 seconds apart but gives each a 10-second
segment, so the two returned highlights `[0, 10]` and `[6, 16]`
overlap. -/
theorem overlapping_highlights_on_two_peaks :
    (HighlightDetector.detect_highlights twoPeakSource none 2 3 30).map
      (fun h => (h.start, h.end_)) = [(0, 10), (6, 16)] ∧
    ¬ (HighlightDetector.detect_highlights twoPeakSource none 2 3 30).Pairwise
      (fun a b => a.end_ ≤ b.start ∨ b.end_ ≤ a.start) :=
  ⟨by decide, by decide⟩

/-- C3 witness: with `minDuration = 5` the duration bound
`min(30, max(5, 10)) = 10 ≤ 2 * 5` holds and the returned highlights do
not overlap. -/
theorem highlights_nonoverlapping_of_gap_witness :
    min (30 : ℚ) (max 5 10) ≤ 5 * 2 ∧
    (HighlightDetector.detect_highlights twoPeakSource none 2 5 30).Pairwise
      (fun a b => a.end_ ≤ b.start ∨ b.end_ ≤ a.start) :=
  ⟨by norm_num, highlights_nonoverlapping_of_gap twoPeakSource 2 5 30 (by norm_num)⟩

/-- C4 counterexample: in scene-driven mode with
`minDuration = 3 ≤ maxDuration = 30`, a 40-second scene is mapped
verbatim to a highlight of duration 40, outside `[3, 30]`. -/
theorem scene_mode_duration_escapes_range :
    (3 : ℚ) ≤ 30 ∧
    (HighlightDetector.detect_highlights oneFrameSource (some [longScene]) 10 3 30).map
      (fun h => (h.start, h.end_, h.duration)) = [(0, 40, 40)] ∧
    ¬ ((40 : ℚ) ≤ 30) :=
  ⟨by norm_num, by decide, by norm_num⟩

/-- C4 witness: `raw_highlight_durations` instantiated on
`twoPeakSource` at the concrete first highlight. -/
theorem raw_highlight_durations_witness :
    (3 : ℚ) ≤ 30 ∧
    firstPeakHighlight ∈ HighlightDetector.detect_highlights twoPeakSource none 2 3 30 ∧
    (firstPeakHighlight.duration = min (30 : ℚ) (max 3 10) ∧
      (3 : ℚ) ≤ firstPeakHighlight.duration ∧ firstPeakHighlight.duration ≤ 30 ∧
      firstPeakHighlight.end_ = firstPeakHighlight.start + firstPeakHighlight.duration) :=
  ⟨by norm_num, by decide,
    raw_highlight_durations twoPeakSource 2 3 30 (by norm_num)
      firstPeakHighlight (by decide)⟩

/-- C5 counterexample: in scene-driven mode the output keeps the
descending-score order, so the high-scoring scene starting at 30 comes
before the low-scoring scene starting at 0 and the list is not sorted by
start ascending. -/
theorem scene_mode_not_time_sorted :
    (HighlightDetector.detect_highlights oneFrameSource
        (some [earlyDullScene, lateActionScene]) 10 3 30).map
      (fun h => (h.id, h.start)) = [(0, 30), (1, 0)] ∧
    ¬ (HighlightDetector.detect_highlights oneFrameSource
        (some [earlyDullScene, lateActionScene]) 10 3 30).Pairwise
      (fun a b => a.start ≤ b.start) :=
  ⟨by decide, by decide⟩

/-- C8 counterexample: for the source that is black (mean luma 5 < 20)
during its first 5 seconds and normal afterwards, `detectBoundaries`
does not report the segment `{start: 0, end: 5, duration: 5}`. -/
theorem black_intro_run_not_reported :
    (⟨0, 5, 5⟩ : ContentDetector.BlackSeg) ∉
      (ContentDetector.detect_content_boundaries blackIntroSource 600).black_frames :=
  by decide

/-- C8 (amended).  The black-frame scan only samples between `introEnd`
and `outroStart`, so the black run in the first 5 seconds of
`blackIntroSource` (inside the intro region) is never sampled and no
black-frame segment is reported for it; in general every reported
segment spans at least 2 seconds and starts no earlier than
`int(introEnd)`. -/
theorem black_frames_only_within_scan :
    (ContentDetector.detect_content_boundaries blackIntroSource 600).black_frames
      = [] ∧
    ∀ (src : VideoSource) (sample_duration : ℕ),
      ∀ seg ∈ (ContentDetector.detect_content_boundaries src
          sample_duration).black_frames,
        seg.duration = seg.end_ - seg.start ∧ 2 ≤ seg.duration ∧
          pyInt ((ContentDetector.detect_content_boundaries src
            sample_duration).intro.end_) ≤ seg.start := by
  refine ⟨by decide, ?_⟩
  intro src sample_duration seg hseg
  have h := ContentDetector.detect_black_frames_inv src
    (ContentDetector._detect_intro src) (ContentDetector._detect_outro src) seg hseg
  exact ⟨h.1, h.2.1, h.2.2.1⟩

/-- C8 witness: on `midBlackSource` the mid-video black run is reported
as `{40, 50, 10}`, which satisfies the amended bounds (the intro end is
30, so the scan starts at 30 ≤ 40). -/
theorem black_frames_only_within_scan_witness :
    midBlackSeg ∈ (ContentDetector.detect_content_boundaries
      midBlackSource 600).black_frames ∧
    (midBlackSeg.duration = midBlackSeg.end_ - midBlackSeg.start ∧
      2 ≤ midBlackSeg.duration ∧
      pyInt ((ContentDetector.detect_content_boundaries
        midBlackSource 600).intro.end_) ≤ midBlackSeg.start) :=
  ⟨by decide,
    black_frames_only_within_scan.2 midBlackSource 600 midBlackSeg (by decide)⟩

/-- C9 counterexample: called with `minDuration = 20 > maxDuration = 5`,
`detect_highlights` returns normally with a highlight whose duration has
been silently clamped to `min(5, max(20, 10)) = 5`; no
invalid-configuration error is raised. -/
theorem misconfig_returns_clamped_highlight :
    (HighlightDetector.detect_highlights oneFrameSource none 1 20 5).map
      (fun h => (h.start, h.end_, h.duration)) = [(0, 5, 5)] ∧
    (5 : ℚ) < 20 :=
  ⟨by decide, by norm_num⟩

/-- C9 witness: `misconfig_silently_clamped` instantiated on
`oneFrameSource` at the concrete clamped highlight. -/
theorem misconfig_silently_clamped_witness :
    (5 : ℚ) < 20 ∧
    clampedHighlight ∈ HighlightDetector.detect_highlights oneFrameSource none 1 20 5 ∧
    (clampedHighlight.duration = 5 ∧ clampedHighlight.duration < 20) :=
  ⟨by norm_num, by decide,
    misconfig_silently_clamped oneFrameSource 1 20 5 (by norm_num)
      clampedHighlight (by decide)⟩

/-- C10.  Passing an empty scene list behaves exactly like passing no
scenes: Python's truthiness test sends `[]` to the raw-video-driven
mode, which can return a non-empty result, rather than returning the
empty scene-derived result. -/
theorem empty_scenes_selects_raw_mode (src : VideoSource) (maxh : ℕ) (m M : ℚ) :
    HighlightDetector.detect_highlights src (some []) maxh m M
      = HighlightDetector._detect_from_video src maxh m M ∧
    HighlightDetector.detect_highlights src (some []) maxh m M
      = HighlightDetector.detect_highlights src none maxh m M ∧
    HighlightDetector._detect_from_scenes [] maxh = [] ∧
    (HighlightDetector.detect_highlights oneFrameSource (some []) 1 3 30).length
      = 1 := by
  refine ⟨rfl, rfl, ?_, by decide⟩
  rw [HighlightDetector.detect_from_scenes_eq]
  simp [HighlightDetector.buildSceneHighlights]

end ConcreteEvaluations

end MovieAnalyzerPro
